import Mathlib

/-!
Shallow embedding of the weekly tournament-registration server actions
(`actions.ts`): weekly state management over a file-backed store, the
registration pipeline, and winner processing.

Conventions of the embedding:
* Week-start instants (`registrationWeekStart`, transaction dates) are `Nat`
  timestamps; the JavaScript `Date`/`getTime()` comparisons become `Nat`
  comparisons, and the ISO round-trip through JSON is the identity.
* The flat-file store is a `FileStore` record with one field per persisted
  file; `readJsonFile` returning `null` on a missing file becomes `Option`.
  The archive directory is a map from a week-start key to the archived
  document (the key models the `registrations-<YYYY-MM-DD>.json` filename
  derived from the archived week start).
* External collaborators (the AI payment-verification adapter, the storage
  upload, the email sends) are inputs in an environment record: a throwing
  call is an `Except.error`, mirroring exactly where the TypeScript code
  catches or propagates.
-/

namespace Founders

/-- A player on a team: `{ id: string, level: number }`. -/
structure Player where
  id : String
  level : Nat
deriving DecidableEq, Repr

/-- `TeamRegistrationData` from `actions.ts`. -/
structure TeamRegistrationData where
  teamName : String
  players : List Player
  contactEmail : String
  contactPhone : String
  utrNumber : String
  screenshotHash : String
  registrationTime : String
deriving DecidableEq, Repr

/-- `RegistrationState`: the persisted week start and the cached team count. -/
structure RegistrationState where
  registrationWeekStart : Nat
  registeredTeamsCount : Nat
deriving DecidableEq, Repr

/-- `WeeklyData`: the authoritative roster for the active week. -/
structure WeeklyData where
  registrationWeekStart : Nat
  teams : List TeamRegistrationData
deriving DecidableEq, Repr

/-- Winner rank: first or second place. -/
inductive Rank where
  | first
  | second
deriving DecidableEq, Repr

/-- `WinnerInfo`: one ranked winner. -/
structure WinnerInfo where
  rank : Rank
  teamName : String
deriving DecidableEq, Repr

/-- `WeeklyWinner`: one history entry, keyed by week start. -/
structure WeeklyWinner where
  weekStart : Nat
  winners : List WinnerInfo
  totalTeams : Nat
deriving DecidableEq, Repr

/-- Output of the payment-verification adapter
(`{ isUtrMatch, reason?, transactionDate? }`). -/
structure VerifyUtrOutput where
  isUtrMatch : Bool
  reason : Option String
  transactionDate : Option Nat
deriving DecidableEq, Repr

/-- The flat-file store: `registration-state.json`, `registrations.json`,
`winners.json`, and the archive directory. A missing file is `none`. -/
structure FileStore where
  stateFile : Option RegistrationState
  registrationsFile : Option WeeklyData
  winnersFile : Option (List WeeklyWinner)
  archive : Nat → Option WeeklyData

/-- Result of `manageWeeklyState`: the store after any reconciliation
writes, plus the returned `{ state, weeklyData }`. -/
structure ManageResult where
  store : FileStore
  state : RegistrationState
  weeklyData : WeeklyData

/-- `isRegistrationWindowOpen`: closed on Sunday from 22:00, and on Monday
before 00:30; open otherwise. `day` is the JavaScript `getDay()` value
(Sunday = 0, Monday = 1). -/
def isRegistrationWindowOpen (day hours minutes : Nat) : Bool :=
  if day = 0 ∧ 22 ≤ hours then false
  else if day = 1 ∧ hours = 0 ∧ minutes < 30 then false
  else true

/-- Minutes elapsed since Monday 00:00 for a local time given as JavaScript
`(getDay(), getHours(), getMinutes())`; `(day + 6) % 7` is the
distance-to-Monday conversion used by the code. -/
def weekMinute (day hours minutes : Nat) : Nat :=
  ((day + 6) % 7) * 1440 + hours * 60 + minutes

/-- `archiveWeeklyData`: skip when the roster is empty, otherwise write the
document verbatim under the key derived from its own week start. -/
def archiveWeeklyData (weeklyData : WeeklyData) (fs : FileStore) : FileStore :=
  if weeklyData.teams.length = 0 then fs
  else
    { fs with
      archive := fun k =>
        if k = weeklyData.registrationWeekStart then some weeklyData
        else fs.archive k }

/-- A fresh `RegistrationState` for a week: zero teams. -/
def freshState (weekStart : Nat) : RegistrationState :=
  { registrationWeekStart := weekStart, registeredTeamsCount := 0 }

/-- A fresh `WeeklyData` for a week: empty roster. -/
def freshWeeklyData (weekStart : Nat) : WeeklyData :=
  { registrationWeekStart := weekStart, teams := [] }

/-- `manageWeeklyState`: initialize both documents when either file is
missing; archive and reset when the persisted week start is older than the
computed current week start; otherwise reconcile the cached count with the
roster length. `currentWeekStart` is `getRegistrationWeekStart(now)`. -/
def manageWeeklyState (currentWeekStart : Nat) (fs : FileStore) : ManageResult :=
  match fs.stateFile, fs.registrationsFile with
  | some state, some weeklyData =>
    if state.registrationWeekStart < currentWeekStart then
      let fs1 := archiveWeeklyData weeklyData fs
      { store :=
          { fs1 with
            stateFile := some (freshState currentWeekStart)
            registrationsFile := some (freshWeeklyData currentWeekStart) }
        state := freshState currentWeekStart
        weeklyData := freshWeeklyData currentWeekStart }
    else if state.registeredTeamsCount ≠ weeklyData.teams.length then
      let state2 :=
        { state with registeredTeamsCount := weeklyData.teams.length }
      { store := { fs with stateFile := some state2 }
        state := state2
        weeklyData := weeklyData }
    else
      { store := fs, state := state, weeklyData := weeklyData }
  | _, _ =>
    { store :=
        { fs with
          stateFile := some (freshState currentWeekStart)
          registrationsFile := some (freshWeeklyData currentWeekStart) }
      state := freshState currentWeekStart
      weeklyData := freshWeeklyData currentWeekStart }

/-- Result of `getRegistrationStatus`. -/
structure RegStatus where
  slotsFilled : Nat
  totalSlots : Nat
  isOpen : Bool
  weekStart : Nat
deriving DecidableEq, Repr

/-- `getRegistrationStatus`: resolve the week, then
`isOpen = window-open && slots-available` against the hard-coded capacity
of 12. Returns the (possibly reconciled) store alongside the status. -/
def getRegistrationStatus (day hours minutes currentWeekStart : Nat)
    (fs : FileStore) : FileStore × RegStatus :=
  let r := manageWeeklyState currentWeekStart fs
  let totalSlots := 12
  let isWindowOpen := isRegistrationWindowOpen day hours minutes
  let areSlotsAvailable := decide (r.state.registeredTeamsCount < totalSlots)
  (r.store,
    { slotsFilled := r.state.registeredTeamsCount
      totalSlots := totalSlots
      isOpen := isWindowOpen && areSlotsAvailable
      weekStart := r.state.registrationWeekStart })

/-- The submitted form fields after parsing into the fixed player slots. -/
structure Submission where
  teamName : String
  players : List Player
  contactEmail : String
  contactPhone : String
  utrNumber : String
deriving DecidableEq, Repr

/-- The per-request environment: the local time components used by the
window check, the computed current week start, the behaviour of the zod
email format check and of the screenshot file checks, the sha256 content
hash of the screenshot, the adapter call outcome (`Except.error` models a
throw), the storage upload outcome, and the registration timestamp. -/
structure Env where
  day : Nat
  hours : Nat
  minutes : Nat
  currentWeekStart : Nat
  emailValid : String → Bool
  screenshotOk : Bool
  screenshotHash : String
  adapter : Except Unit VerifyUtrOutput
  uploadResult : Except Unit String
  nowIso : String

/-- The zod `registrationSchema` check, issues reported in shape order:
team name 1..30 chars, exactly 4 players with id 1..30 chars and level
30..100, email format (library predicate, abstracted), 10-digit phone,
UTR 5..30 chars, screenshot present/size/type. `none` means valid. -/
def validateSubmission (emailValid : String → Bool) (screenshotOk : Bool)
    (sub : Submission) : Option String :=
  if ¬ (1 ≤ sub.teamName.length ∧ sub.teamName.length ≤ 30) then
    some "teamName: Team Name must be between 1 and 30 characters."
  else if sub.players.length ≠ 4 then
    some "players: Exactly 4 players are required."
  else if ¬ (∀ p ∈ sub.players,
      1 ≤ p.id.length ∧ p.id.length ≤ 30 ∧ 30 ≤ p.level ∧ p.level ≤ 100) then
    some "players: Invalid player ID or level."
  else if emailValid sub.contactEmail = false then
    some "contactEmail: Invalid email address."
  else if ¬ (sub.contactPhone.length = 10 ∧
      sub.contactPhone.data.all Char.isDigit) then
    some "contactPhone: Must be a valid 10-digit phone number."
  else if ¬ (5 ≤ sub.utrNumber.length ∧ sub.utrNumber.length ≤ 30) then
    some "utrNumber: UTR number must be between 5 and 30 characters."
  else if screenshotOk = false then
    some "screenshot: Screenshot is required or invalid."
  else none

/-- `runAIVerification`: call the adapter; when the call throws, return a
non-match verdict with the unavailability reason (fail closed). -/
def runAIVerification (adapter : Except Unit VerifyUtrOutput) :
    VerifyUtrOutput :=
  match adapter with
  | .ok v => v
  | .error _ =>
    { isUtrMatch := false
      reason :=
        some "AI verification service is currently unavailable. Please try again later."
      transactionDate := none }

/-- Duplicate-UTR check: trimmed, lower-cased comparison over the teams
of the week. -/
def dupUtr (teams : List TeamRegistrationData) (utrNumber : String) : Bool :=
  teams.any fun t => t.utrNumber.trim.toLower == utrNumber.trim.toLower

/-- Duplicate-email check: trimmed, lower-cased comparison. -/
def dupEmail (teams : List TeamRegistrationData) (contactEmail : String) :
    Bool :=
  teams.any fun t => t.contactEmail.trim.toLower == contactEmail.trim.toLower

/-- Duplicate-phone check: trimmed comparison. -/
def dupPhone (teams : List TeamRegistrationData) (contactPhone : String) :
    Bool :=
  teams.any fun t => t.contactPhone.trim == contactPhone.trim

/-- Duplicate-screenshot check: exact hash comparison. -/
def dupHash (teams : List TeamRegistrationData) (screenshotHash : String) :
    Bool :=
  teams.any fun t => t.screenshotHash == screenshotHash

/-- Result shape of the `registerTeam` action. -/
structure RegResult where
  success : Bool
  message : Option String
  error : Option String
  data : Option TeamRegistrationData
deriving DecidableEq, Repr

/-- `registerTeam`: the sequential pipeline — status check (which calls
`manageWeeklyState` both directly and through `getRegistrationStatus`),
schema validation, AI verification, transaction-date checks, duplicate
checks, screenshot upload (failure logged only), then persistence of the
new team and the synced counter. -/
def registerTeam (env : Env) (sub : Submission) (fs : FileStore) :
    FileStore × RegResult :=
  let r := manageWeeklyState env.currentWeekStart fs
  let g := getRegistrationStatus env.day env.hours env.minutes
    env.currentWeekStart r.store
  let fs2 := g.1
  let status := g.2
  if status.isOpen = false then
    (fs2,
      { success := false, message := none
        error :=
          some "Registrations are currently closed. Please check back next week."
        data := none })
  else
    match validateSubmission env.emailValid env.screenshotOk sub with
    | some msg =>
      (fs2, { success := false, message := none, error := some msg
              data := none })
    | none =>
      let verificationResult := runAIVerification env.adapter
      if verificationResult.isUtrMatch = false then
        (fs2,
          { success := false, message := none
            error := verificationResult.reason, data := none })
      else
        match verificationResult.transactionDate with
        | none =>
          (fs2,
            { success := false, message := none
              error :=
                some "AI could not determine the transaction date from the screenshot. Please try with a clearer screenshot."
              data := none })
        | some transactionDate =>
          if transactionDate < r.state.registrationWeekStart then
            (fs2,
              { success := false, message := none
                error :=
                  some "This payment screenshot is from a previous week. Please use a new payment for this weeks registration."
                data := none })
          else if dupUtr r.weeklyData.teams sub.utrNumber then
            (fs2,
              { success := false, message := none
                error := some "This UTR number has already been used this week."
                data := none })
          else if dupEmail r.weeklyData.teams sub.contactEmail then
            (fs2,
              { success := false, message := none
                error := some "This email has already been used this week."
                data := none })
          else if dupPhone r.weeklyData.teams sub.contactPhone then
            (fs2,
              { success := false, message := none
                error :=
                  some "This phone number has already been used this week."
                data := none })
          else if dupHash r.weeklyData.teams env.screenshotHash then
            (fs2,
              { success := false, message := none
                error :=
                  some "This payment screenshot has already been used this week."
                data := none })
          else
            let screenshotUrl : Option String :=
              match env.uploadResult with
              | .ok url => some url
              | .error _ => none
            let registrationData : TeamRegistrationData :=
              { teamName := sub.teamName
                players := sub.players
                contactEmail := sub.contactEmail
                contactPhone := sub.contactPhone
                utrNumber := sub.utrNumber
                screenshotHash := env.screenshotHash
                registrationTime := env.nowIso }
            let newTeams := r.weeklyData.teams ++ [registrationData]
            let newWeeklyData := { r.weeklyData with teams := newTeams }
            let updatedState :=
              { r.state with registeredTeamsCount := newTeams.length }
            let _ := screenshotUrl
            let fs3 :=
              { fs2 with
                registrationsFile := some newWeeklyData
                stateFile := some updatedState }
            (fs3,
              { success := true, message := some "Registration Submitted!"
                error := none, data := some registrationData })

/-- Environment for winner processing: the computed current week start and
the outcomes of the two `sendWinnerEmail` calls (`Except.error` models a
throw: missing email configuration or a failed send). -/
structure WinnerEnv where
  currentWeekStart : Nat
  sendFirst : Except String Unit
  sendSecond : Except String Unit

/-- `processAndEmailWinners`: resolve the week, send the two winner emails
(a failure propagates as a hard error before anything is saved), then
replace any existing entry for this week in the winners history and
prepend the new record. -/
def processAndEmailWinners (env : WinnerEnv)
    (firstPlaceTeam secondPlaceTeam : TeamRegistrationData)
    (fs : FileStore) : FileStore × Except String Unit :=
  let r := manageWeeklyState env.currentWeekStart fs
  match env.sendFirst with
  | .error e => (r.store, .error e)
  | .ok _ =>
    match env.sendSecond with
    | .error e => (r.store, .error e)
    | .ok _ =>
      let newWinnerRecord : WeeklyWinner :=
        { weekStart := r.state.registrationWeekStart
          winners :=
            [ { rank := Rank.first, teamName := firstPlaceTeam.teamName },
              { rank := Rank.second, teamName := secondPlaceTeam.teamName } ]
          totalTeams := r.state.registeredTeamsCount }
      let allWinners := (r.store.winnersFile.getD []).filter
        fun w => w.weekStart != newWinnerRecord.weekStart
      let updated := newWinnerRecord :: allWinners
      ({ r.store with winnersFile := some updated }, .ok ())

/-- The `TeamRegistrationData` record the success path of `registerTeam`
persists, assembled from the validated fields, the screenshot hash and the
current timestamp. -/
def newRegistration (env : Env) (sub : Submission) : TeamRegistrationData :=
  { teamName := sub.teamName
    players := sub.players
    contactEmail := sub.contactEmail
    contactPhone := sub.contactPhone
    utrNumber := sub.utrNumber
    screenshotHash := env.screenshotHash
    registrationTime := env.nowIso }

/-- The persisted counter agrees with the persisted roster length. -/
def consistent (fs : FileStore) : Prop :=
  ∃ s w, fs.stateFile = some s ∧ fs.registrationsFile = some w ∧
    s.registeredTeamsCount = w.teams.length

/-- A concrete registered team, used to instantiate the theorems. -/
def sampleTeam : TeamRegistrationData :=
  { teamName := "Alpha"
    players :=
      [ { id := "p1", level := 50 }, { id := "p2", level := 60 },
        { id := "p3", level := 70 }, { id := "p4", level := 80 } ]
    contactEmail := "alpha@example.com"
    contactPhone := "1234567890"
    utrNumber := "UTR123"
    screenshotHash := "hash1"
    registrationTime := "t0" }

/-- A store with no persisted files at all. -/
def sampleFsEmpty : FileStore :=
  { stateFile := none, registrationsFile := none, winnersFile := none
    archive := fun _ => none }

/-- A store whose state file is missing while a non-empty roster exists. -/
def sampleFsNoState : FileStore :=
  { stateFile := none
    registrationsFile := some { registrationWeekStart := 0, teams := [sampleTeam] }
    winnersFile := none
    archive := fun _ => none }

/-- A store persisted for week 0 with one team, seen from week 100. -/
def sampleFsOld : FileStore :=
  { stateFile := some { registrationWeekStart := 0, registeredTeamsCount := 1 }
    registrationsFile := some { registrationWeekStart := 0, teams := [sampleTeam] }
    winnersFile := none
    archive := fun _ => none }

/-- A store for week 100 already holding 12 teams. -/
def sampleFsFull : FileStore :=
  { stateFile := some { registrationWeekStart := 100, registeredTeamsCount := 12 }
    registrationsFile :=
      some { registrationWeekStart := 100, teams := List.replicate 12 sampleTeam }
    winnersFile := none
    archive := fun _ => none }

/-- A store for week 100 holding exactly `sampleTeam`. -/
def sampleFsOne : FileStore :=
  { stateFile := some { registrationWeekStart := 100, registeredTeamsCount := 1 }
    registrationsFile := some { registrationWeekStart := 100, teams := [sampleTeam] }
    winnersFile := none
    archive := fun _ => none }

/-- An environment on a Wednesday noon inside the window, current week 100,
a matching adapter verdict dated inside the week. -/
def sampleEnv : Env :=
  { day := 3, hours := 12, minutes := 0
    currentWeekStart := 100
    emailValid := fun _ => true
    screenshotOk := true
    screenshotHash := "hash2"
    adapter :=
      Except.ok { isUtrMatch := true, reason := none, transactionDate := some 150 }
    uploadResult := Except.ok "url"
    nowIso := "now" }

/-- The same environment at Sunday 23:00, outside the window. -/
def sampleEnvClosed : Env :=
  { sampleEnv with day := 0, hours := 23 }

/-- The same environment with a throwing adapter. -/
def sampleEnvErr : Env :=
  { sampleEnv with adapter := Except.error () }

/-- The same environment whose screenshot hash collides with `sampleTeam`. -/
def sampleEnvHash : Env :=
  { sampleEnv with screenshotHash := "hash1" }

/-- The same environment with a matching verdict that carries no
transaction date. -/
def sampleEnvNoDate : Env :=
  { sampleEnv with
    adapter :=
      Except.ok { isUtrMatch := true, reason := none, transactionDate := none } }

/-- The same environment with a matching verdict dated before week 100. -/
def sampleEnvStale : Env :=
  { sampleEnv with
    adapter :=
      Except.ok { isUtrMatch := true, reason := none, transactionDate := some 50 } }

/-- A concrete submission distinct from `sampleTeam` in every field. -/
def sampleSub : Submission :=
  { teamName := "Beta"
    players :=
      [ { id := "q1", level := 40 }, { id := "q2", level := 45 },
        { id := "q3", level := 55 }, { id := "q4", level := 65 } ]
    contactEmail := "beta@example.com"
    contactPhone := "0987654321"
    utrNumber := "UTR999" }

/-- A winner-processing environment whose first email send fails. -/
def sampleWinnerEnvFail : WinnerEnv :=
  { currentWeekStart := 100, sendFirst := Except.error "send failed"
    sendSecond := Except.ok () }

/-- A winner-processing environment whose second email send fails. -/
def sampleWinnerEnvFail2 : WinnerEnv :=
  { currentWeekStart := 100, sendFirst := Except.ok ()
    sendSecond := Except.error "send failed" }

/-- A winner-processing environment where both sends succeed. -/
def sampleWinnerEnvOk : WinnerEnv :=
  { currentWeekStart := 100, sendFirst := Except.ok (), sendSecond := Except.ok () }

/-- `manageWeeklyState` returns exactly the documents it leaves on disk,
their counter matches the roster, and the winners file is untouched. -/
theorem manageWeeklyState_spec (w : Nat) (fs : FileStore) :
    (manageWeeklyState w fs).store.stateFile =
      some (manageWeeklyState w fs).state ∧
    (manageWeeklyState w fs).store.registrationsFile =
      some (manageWeeklyState w fs).weeklyData ∧
    (manageWeeklyState w fs).state.registeredTeamsCount =
      (manageWeeklyState w fs).weeklyData.teams.length ∧
    (manageWeeklyState w fs).store.winnersFile = fs.winnersFile := by
  rcases hs : fs.stateFile with _ | s <;>
    rcases hw : fs.registrationsFile with _ | wd <;>
      simp [manageWeeklyState, hs, hw, freshState, freshWeeklyData,
        archiveWeeklyData] <;>
        split_ifs <;>
          simp_all [archiveWeeklyData]

/-- Running `manageWeeklyState` twice with the same current week start is
the same as running it once. -/
theorem manageWeeklyState_idem (w : Nat) (fs : FileStore) :
    manageWeeklyState w (manageWeeklyState w fs).store =
      manageWeeklyState w fs := by
  rcases hs : fs.stateFile with _ | s <;>
    rcases hw : fs.registrationsFile with _ | wd <;>
      simp [manageWeeklyState, hs, hw, freshState, freshWeeklyData] <;>
        split_ifs with h1 h2 <;>
          simp_all [manageWeeklyState, archiveWeeklyData, freshState,
            freshWeeklyData]

/-- Case analysis on a `registerTeam` run: either the pipeline rejects and
the store is exactly what `manageWeeklyState` left, or it succeeds, every
guard of the pipeline passed, and the store holds the appended roster with
the synced counter. -/
theorem registerTeam_cases (env : Env) (sub : Submission) (fs : FileStore) :
    ((registerTeam env sub fs).2.success = false ∧
      (registerTeam env sub fs).1 =
        (manageWeeklyState env.currentWeekStart fs).store) ∨
    ((registerTeam env sub fs).2.success = true ∧
      isRegistrationWindowOpen env.day env.hours env.minutes = true ∧
      (manageWeeklyState env.currentWeekStart fs).state.registeredTeamsCount
        < 12 ∧
      validateSubmission env.emailValid env.screenshotOk sub = none ∧
      (runAIVerification env.adapter).isUtrMatch = true ∧
      (∃ td, (runAIVerification env.adapter).transactionDate = some td ∧
        ¬ td <
          (manageWeeklyState env.currentWeekStart fs).state.registrationWeekStart) ∧
      dupUtr (manageWeeklyState env.currentWeekStart fs).weeklyData.teams
        sub.utrNumber = false ∧
      dupEmail (manageWeeklyState env.currentWeekStart fs).weeklyData.teams
        sub.contactEmail = false ∧
      dupPhone (manageWeeklyState env.currentWeekStart fs).weeklyData.teams
        sub.contactPhone = false ∧
      dupHash (manageWeeklyState env.currentWeekStart fs).weeklyData.teams
        env.screenshotHash = false ∧
      (registerTeam env sub fs).1 =
        { (manageWeeklyState env.currentWeekStart fs).store with
          registrationsFile := some
            { registrationWeekStart :=
                (manageWeeklyState env.currentWeekStart fs).weeklyData.registrationWeekStart
              teams :=
                (manageWeeklyState env.currentWeekStart fs).weeklyData.teams
                  ++ [newRegistration env sub] }
          stateFile := some
            { registrationWeekStart :=
                (manageWeeklyState env.currentWeekStart fs).state.registrationWeekStart
              registeredTeamsCount :=
                (manageWeeklyState env.currentWeekStart fs).weeklyData.teams.length
                  + 1 } }) := by
  simp only [registerTeam, getRegistrationStatus, manageWeeklyState_idem]
  split
  next hclosed => left; exact ⟨rfl, rfl⟩
  next hclosed =>
  simp only [eq_self_iff_true, not_false_iff, Bool.not_eq_false,
    Bool.and_eq_true, decide_eq_true_eq] at hclosed
  split
  next msg hval => left; exact ⟨rfl, rfl⟩
  next hval =>
  split
  next hmatch => left; exact ⟨rfl, rfl⟩
  next hmatch =>
  simp only [Bool.not_eq_false] at hmatch
  split
  next htd => left; exact ⟨rfl, rfl⟩
  next td htd =>
  split
  next hdate => left; exact ⟨rfl, rfl⟩
  next hdate =>
  split
  next hu => left; exact ⟨rfl, rfl⟩
  next hu =>
  split
  next he => left; exact ⟨rfl, rfl⟩
  next he =>
  split
  next hp => left; exact ⟨rfl, rfl⟩
  next hp =>
  split
  next hh => left; exact ⟨rfl, rfl⟩
  next hh =>
  right
  refine ⟨rfl, hclosed.1, hclosed.2, hval, hmatch, ⟨td, htd, hdate⟩,
    ?_, ?_, ?_, ?_, ?_⟩
  · simpa using hu
  · simpa using he
  · simpa using hp
  · simpa using hh
  · simp [newRegistration]

/-- Within the same week, `manageWeeklyState` keeps the stored roster,
reconciles only the counter, and touches neither archive nor winners. -/
theorem manageWeeklyState_same_week (w : Nat) (fs : FileStore)
    (s : RegistrationState) (wd : WeeklyData)
    (hs : fs.stateFile = some s) (hw : fs.registrationsFile = some wd)
    (hsame : ¬ s.registrationWeekStart < w) :
    (manageWeeklyState w fs).weeklyData = wd ∧
    (manageWeeklyState w fs).state.registeredTeamsCount = wd.teams.length ∧
    (manageWeeklyState w fs).state.registrationWeekStart =
      s.registrationWeekStart ∧
    (manageWeeklyState w fs).store.registrationsFile = some wd ∧
    (manageWeeklyState w fs).store.archive = fs.archive ∧
    (manageWeeklyState w fs).store.winnersFile = fs.winnersFile := by
  simp only [manageWeeklyState, hs, hw]
  split_ifs with h1 h2 <;> simp_all

/-- C1: for every store, after a `manageWeeklyState`-backed read and after
any `registerTeam` call (successful or not), the persisted
`registeredTeamsCount` equals the persisted roster length. -/
theorem counter_always_matches_roster (w : Nat) (env : Env)
    (sub : Submission) (fs fs2 : FileStore) :
    consistent (manageWeeklyState w fs).store ∧
    consistent (registerTeam env sub fs2).1 := by
  constructor
  · obtain ⟨h1, h2, h3, -⟩ := manageWeeklyState_spec w fs
    exact ⟨_, _, h1, h2, h3⟩
  · rcases registerTeam_cases env sub fs2 with ⟨-, hst⟩ |
      ⟨-, -, -, -, -, -, -, -, -, -, hst⟩
    · rw [hst]
      obtain ⟨h1, h2, h3, -⟩ := manageWeeklyState_spec env.currentWeekStart fs2
      exact ⟨_, _, h1, h2, h3⟩
    · rw [hst]
      exact ⟨_, _, rfl, rfl, by simp⟩

/-- C10: when either persisted document is missing, `manageWeeklyState`
reinitializes both documents to the current week with an empty roster and
performs no archival — even when the surviving roster file held teams. -/
theorem missing_file_reinitializes_both (w : Nat) (fs : FileStore)
    (h : fs.stateFile = none ∨ fs.registrationsFile = none) :
    (manageWeeklyState w fs).store.stateFile = some (freshState w) ∧
    (manageWeeklyState w fs).store.registrationsFile =
      some (freshWeeklyData w) ∧
    (manageWeeklyState w fs).store.archive = fs.archive ∧
    (manageWeeklyState w fs).weeklyData.teams = [] := by
  rcases hs : fs.stateFile with _ | s <;>
    rcases hw : fs.registrationsFile with _ | wd <;>
      simp_all [manageWeeklyState, freshState, freshWeeklyData]

/-- C10 witness: a missing state file next to a non-empty roster file is
reinitialized, losing the roster. -/
theorem missing_file_reinitializes_both_witness :
    (manageWeeklyState 100 sampleFsNoState).store.stateFile =
      some (freshState 100) ∧
    (manageWeeklyState 100 sampleFsNoState).store.registrationsFile =
      some (freshWeeklyData 100) ∧
    (manageWeeklyState 100 sampleFsNoState).store.archive =
      sampleFsNoState.archive ∧
    (manageWeeklyState 100 sampleFsNoState).weeklyData.teams = [] :=
  missing_file_reinitializes_both 100 sampleFsNoState (Or.inl rfl)

/-- C4: on week rollover, a non-empty old roster is archived verbatim under
its own week-start key (an empty one is not archived, and no other archive
key changes), and both documents are reset to the current week, empty. -/
theorem rollover_archives_and_resets (w : Nat) (fs : FileStore)
    (s : RegistrationState) (wd : WeeklyData)
    (hs : fs.stateFile = some s) (hw : fs.registrationsFile = some wd)
    (hold : s.registrationWeekStart < w) :
    (wd.teams ≠ [] →
      (manageWeeklyState w fs).store.archive wd.registrationWeekStart =
        some wd) ∧
    (wd.teams = [] →
      (manageWeeklyState w fs).store.archive = fs.archive) ∧
    (∀ k, k ≠ wd.registrationWeekStart →
      (manageWeeklyState w fs).store.archive k = fs.archive k) ∧
    (manageWeeklyState w fs).store.stateFile = some (freshState w) ∧
    (manageWeeklyState w fs).store.registrationsFile =
      some (freshWeeklyData w) := by
  have hm : manageWeeklyState w fs =
      { store :=
          { archiveWeeklyData wd fs with
            stateFile := some (freshState w)
            registrationsFile := some (freshWeeklyData w) }
        state := freshState w
        weeklyData := freshWeeklyData w } := by
    simp [manageWeeklyState, hs, hw, hold]
  rw [hm]
  refine ⟨?_, ?_, ?_, rfl, rfl⟩
  · intro hne
    have hlen : wd.teams.length ≠ 0 := fun h0 => hne (List.length_eq_zero.mp h0)
    simp [archiveWeeklyData, hlen]
  · intro hnil
    simp [archiveWeeklyData, hnil]
  · intro k hk
    by_cases hlen : wd.teams.length = 0 <;> simp [archiveWeeklyData, hlen, hk]

/-- C4 witness: the week-0 roster with one team is archived under key 0 and
the documents are reset to week 100. -/
theorem rollover_archives_and_resets_witness :
    (manageWeeklyState 100 sampleFsOld).store.archive 0 =
      some { registrationWeekStart := 0, teams := [sampleTeam] } ∧
    (manageWeeklyState 100 sampleFsOld).store.stateFile =
      some (freshState 100) ∧
    (manageWeeklyState 100 sampleFsOld).store.registrationsFile =
      some (freshWeeklyData 100) := by
  have h := rollover_archives_and_resets 100 sampleFsOld
    { registrationWeekStart := 0, registeredTeamsCount := 1 }
    { registrationWeekStart := 0, teams := [sampleTeam] }
    rfl rfl (by decide)
  exact ⟨h.1 (by simp), h.2.2.2.1, h.2.2.2.2⟩

/-- C2: once the current week holds 12 teams, any further `registerTeam`
call is rejected without appending a team, whatever the window state. -/
theorem capacity_full_rejects (env : Env) (sub : Submission)
    (fs : FileStore) (s : RegistrationState) (wd : WeeklyData)
    (hs : fs.stateFile = some s) (hw : fs.registrationsFile = some wd)
    (hsame : ¬ s.registrationWeekStart < env.currentWeekStart)
    (hfull : wd.teams.length = 12) :
    (registerTeam env sub fs).2.success = false ∧
    (registerTeam env sub fs).1.registrationsFile = some wd := by
  obtain ⟨-, hcnt, -, hreg, -, -⟩ :=
    manageWeeklyState_same_week env.currentWeekStart fs s wd hs hw hsame
  rcases registerTeam_cases env sub fs with ⟨hsucc, hst⟩ |
    ⟨-, -, hlt, -⟩
  · exact ⟨hsucc, by rw [hst]; exact hreg⟩
  · omega

/-- C2 witness: a 13th registration against a 12-team week is rejected even
with the window open and an otherwise acceptable submission. -/
theorem capacity_full_rejects_witness :
    (registerTeam sampleEnv sampleSub sampleFsFull).2.success = false ∧
    (registerTeam sampleEnv sampleSub sampleFsFull).1.registrationsFile =
      some { registrationWeekStart := 100, teams := List.replicate 12 sampleTeam } :=
  capacity_full_rejects sampleEnv sampleSub sampleFsFull
    { registrationWeekStart := 100, registeredTeamsCount := 12 }
    { registrationWeekStart := 100, teams := List.replicate 12 sampleTeam }
    rfl rfl (by decide) (by simp)

/-- C3: the window test opens exactly on [Monday 00:30, Sunday 22:00) in
minutes since Monday 00:00 local time; a `registerTeam` call while the test
is closed is rejected; and at any instant the test accepts — in particular
the opening instant Monday 00:30 — a week with free slots reports an open
status. -/
theorem registration_window_exact :
    (∀ d h m, d < 7 → h < 24 → m < 60 →
      (isRegistrationWindowOpen d h m = true ↔
        30 ≤ weekMinute d h m ∧ weekMinute d h m < 9960)) ∧
    (∀ (env : Env) (sub : Submission) (fs : FileStore),
      isRegistrationWindowOpen env.day env.hours env.minutes = false →
      (registerTeam env sub fs).2.success = false) ∧
    (∀ (w : Nat) (fs : FileStore),
      (manageWeeklyState w fs).state.registeredTeamsCount < 12 →
      (getRegistrationStatus 1 0 30 w fs).2.isOpen = true) := by
  refine ⟨?_, ?_, ?_⟩
  · intro d h m hd hh hm
    unfold isRegistrationWindowOpen weekMinute
    split_ifs with h1 h2 <;> simp <;> omega
  · intro env sub fs hwin
    rcases registerTeam_cases env sub fs with ⟨hsucc, -⟩ | ⟨-, hopen, -⟩
    · exact hsucc
    · rw [hwin] at hopen
      cases hopen
  · intro w fs hcnt
    simp [getRegistrationStatus, isRegistrationWindowOpen, hcnt]

/-- C3 witness: Monday 00:30 satisfies the interval characterization, a
Sunday 23:00 submission is rejected, and at Monday 00:30 an empty week
reports an open status. -/
theorem registration_window_exact_witness :
    (isRegistrationWindowOpen 1 0 30 = true ↔
      30 ≤ weekMinute 1 0 30 ∧ weekMinute 1 0 30 < 9960) ∧
    (registerTeam sampleEnvClosed sampleSub sampleFsEmpty).2.success = false ∧
    (getRegistrationStatus 1 0 30 100 sampleFsEmpty).2.isOpen = true :=
  ⟨registration_window_exact.1 1 0 30 (by decide) (by decide) (by decide),
   registration_window_exact.2.1 sampleEnvClosed sampleSub sampleFsEmpty
     (by decide),
   registration_window_exact.2.2 100 sampleFsEmpty (by decide)⟩

/-- C5: a submission matching an existing team of the resolved week on
normalized UTR, normalized email, exact phone, or exact screenshot hash is
rejected without appending a team. -/
theorem duplicate_in_week_rejected (env : Env) (sub : Submission)
    (fs : FileStore)
    (hdup :
      (∃ t ∈ (manageWeeklyState env.currentWeekStart fs).weeklyData.teams,
        t.utrNumber.trim.toLower = sub.utrNumber.trim.toLower) ∨
      (∃ t ∈ (manageWeeklyState env.currentWeekStart fs).weeklyData.teams,
        t.contactEmail.trim.toLower = sub.contactEmail.trim.toLower) ∨
      (∃ t ∈ (manageWeeklyState env.currentWeekStart fs).weeklyData.teams,
        t.contactPhone = sub.contactPhone) ∨
      (∃ t ∈ (manageWeeklyState env.currentWeekStart fs).weeklyData.teams,
        t.screenshotHash = env.screenshotHash)) :
    (registerTeam env sub fs).2.success = false ∧
    (registerTeam env sub fs).1.registrationsFile =
      some (manageWeeklyState env.currentWeekStart fs).weeklyData := by
  rcases registerTeam_cases env sub fs with ⟨hsucc, hst⟩ |
    ⟨-, -, -, -, -, -, hu, he, hp, hh, -⟩
  · refine ⟨hsucc, ?_⟩
    rw [hst]
    exact (manageWeeklyState_spec env.currentWeekStart fs).2.1
  · exfalso
    rcases hdup with ⟨t, ht, heq⟩ | ⟨t, ht, heq⟩ | ⟨t, ht, heq⟩ | ⟨t, ht, heq⟩
    · have hdu : dupUtr
          (manageWeeklyState env.currentWeekStart fs).weeklyData.teams
          sub.utrNumber = true := by
        simp only [dupUtr, List.any_eq_true, beq_iff_eq]
        exact ⟨t, ht, heq⟩
      simp [hdu] at hu
    · have hde : dupEmail
          (manageWeeklyState env.currentWeekStart fs).weeklyData.teams
          sub.contactEmail = true := by
        simp only [dupEmail, List.any_eq_true, beq_iff_eq]
        exact ⟨t, ht, heq⟩
      simp [hde] at he
    · have hdp : dupPhone
          (manageWeeklyState env.currentWeekStart fs).weeklyData.teams
          sub.contactPhone = true := by
        simp only [dupPhone, List.any_eq_true, beq_iff_eq]
        exact ⟨t, ht, by rw [heq]⟩
      simp [hdp] at hp
    · have hdh : dupHash
          (manageWeeklyState env.currentWeekStart fs).weeklyData.teams
          env.screenshotHash = true := by
        simp only [dupHash, List.any_eq_true, beq_iff_eq]
        exact ⟨t, ht, heq⟩
      simp [hdh] at hh

/-- C5 witness: a submission with a fresh UTR but the screenshot hash of an
already-registered team is rejected. -/
theorem duplicate_in_week_rejected_witness :
    (registerTeam sampleEnvHash sampleSub sampleFsOne).2.success = false ∧
    (registerTeam sampleEnvHash sampleSub sampleFsOne).1.registrationsFile =
      some (manageWeeklyState sampleEnvHash.currentWeekStart
        sampleFsOne).weeklyData :=
  duplicate_in_week_rejected sampleEnvHash sampleSub sampleFsOne
    (Or.inr (Or.inr (Or.inr ⟨sampleTeam, by decide, rfl⟩)))

/-- When control reaches the AI-verification step (status open, validation
passed) and the verdict is a non-match, the returned error is exactly the
reason carried by the verdict. -/
theorem registerTeam_error_is_adapter_reason (env : Env) (sub : Submission)
    (fs : FileStore)
    (hwin : isRegistrationWindowOpen env.day env.hours env.minutes = true)
    (hcnt :
      (manageWeeklyState env.currentWeekStart fs).state.registeredTeamsCount
        < 12)
    (hval : validateSubmission env.emailValid env.screenshotOk sub = none)
    (hmatch : (runAIVerification env.adapter).isUtrMatch = false) :
    (registerTeam env sub fs).2.error =
      (runAIVerification env.adapter).reason := by
  simp only [registerTeam, getRegistrationStatus, manageWeeklyState_idem,
    hval, hwin, hmatch]
  simp [hcnt]

/-- C6: a throwing payment-verification adapter is treated as a non-match —
the call fails and nothing is persisted, and (once the pipeline reaches the
verification step) the error is the unavailability reason; likewise any
non-match verdict fails the call with the reason given by the adapter. -/
theorem adapter_error_fails_closed (env : Env) (sub : Submission)
    (fs : FileStore) :
    (env.adapter = Except.error () →
      (registerTeam env sub fs).2.success = false ∧
      (registerTeam env sub fs).1.registrationsFile =
        some (manageWeeklyState env.currentWeekStart fs).weeklyData) ∧
    (∀ v, env.adapter = Except.ok v → v.isUtrMatch = false →
      (registerTeam env sub fs).2.success = false ∧
      (registerTeam env sub fs).1.registrationsFile =
        some (manageWeeklyState env.currentWeekStart fs).weeklyData) ∧
    (isRegistrationWindowOpen env.day env.hours env.minutes = true →
      (manageWeeklyState env.currentWeekStart fs).state.registeredTeamsCount
        < 12 →
      validateSubmission env.emailValid env.screenshotOk sub = none →
      (env.adapter = Except.error () →
        (registerTeam env sub fs).2.error =
          some "AI verification service is currently unavailable. Please try again later.") ∧
      (∀ v, env.adapter = Except.ok v → v.isUtrMatch = false →
        (registerTeam env sub fs).2.error = v.reason)) := by
  have hreject : (runAIVerification env.adapter).isUtrMatch = false →
      (registerTeam env sub fs).2.success = false ∧
      (registerTeam env sub fs).1.registrationsFile =
        some (manageWeeklyState env.currentWeekStart fs).weeklyData := by
    intro hm
    rcases registerTeam_cases env sub fs with ⟨hsucc, hst⟩ |
      ⟨-, -, -, -, hmatch, -⟩
    · refine ⟨hsucc, ?_⟩
      rw [hst]
      exact (manageWeeklyState_spec env.currentWeekStart fs).2.1
    · rw [hm] at hmatch
      cases hmatch
  refine ⟨?_, ?_, ?_⟩
  · intro hadapter
    exact hreject (by simp [runAIVerification, hadapter])
  · intro v hok hvmatch
    exact hreject (by simp [runAIVerification, hok, hvmatch])
  · intro hwin hcnt hval
    constructor
    · intro hadapter
      have h := registerTeam_error_is_adapter_reason env sub fs hwin hcnt hval
        (by simp [runAIVerification, hadapter])
      rw [h]
      simp [runAIVerification, hadapter]
    · intro v hok hvmatch
      have h := registerTeam_error_is_adapter_reason env sub fs hwin hcnt hval
        (by simp [runAIVerification, hok, hvmatch])
      rw [h]
      simp [runAIVerification, hok]

/-- C6 witness: with a throwing adapter and an otherwise acceptable
submission, the call fails, persists nothing, and reports the
unavailability reason. -/
theorem adapter_error_fails_closed_witness :
    ((registerTeam sampleEnvErr sampleSub sampleFsEmpty).2.success = false ∧
      (registerTeam sampleEnvErr sampleSub sampleFsEmpty).1.registrationsFile =
        some (manageWeeklyState sampleEnvErr.currentWeekStart
          sampleFsEmpty).weeklyData) ∧
    (registerTeam sampleEnvErr sampleSub sampleFsEmpty).2.error =
      some "AI verification service is currently unavailable. Please try again later." :=
  ⟨(adapter_error_fails_closed sampleEnvErr sampleSub sampleFsEmpty).1 rfl,
   ((adapter_error_fails_closed sampleEnvErr sampleSub sampleFsEmpty).2.2
      (by decide) (by decide) (by decide)).1 rfl⟩

/-- C7: a matching verdict with no extracted transaction date is rejected,
and a transaction date strictly before the resolved week start is rejected,
in both cases without persisting anything. -/
theorem transaction_date_guard (env : Env) (sub : Submission)
    (fs : FileStore) (v : VerifyUtrOutput)
    (hok : env.adapter = Except.ok v) (hmatch : v.isUtrMatch = true) :
    (v.transactionDate = none →
      (registerTeam env sub fs).2.success = false ∧
      (registerTeam env sub fs).1.registrationsFile =
        some (manageWeeklyState env.currentWeekStart fs).weeklyData) ∧
    (∀ td, v.transactionDate = some td →
      td <
        (manageWeeklyState env.currentWeekStart
          fs).state.registrationWeekStart →
      (registerTeam env sub fs).2.success = false ∧
      (registerTeam env sub fs).1.registrationsFile =
        some (manageWeeklyState env.currentWeekStart fs).weeklyData) := by
  have hrun : runAIVerification env.adapter = v := by
    simp [runAIVerification, hok]
  constructor
  · intro hnone
    rcases registerTeam_cases env sub fs with ⟨hsucc, hst⟩ |
      ⟨-, -, -, -, -, ⟨td, htd, -⟩, -⟩
    · refine ⟨hsucc, ?_⟩
      rw [hst]
      exact (manageWeeklyState_spec env.currentWeekStart fs).2.1
    · rw [hrun, hnone] at htd
      cases htd
  · intro td htd hlt
    rcases registerTeam_cases env sub fs with ⟨hsucc, hst⟩ |
      ⟨-, -, -, -, -, ⟨td2, htd2, hge⟩, -⟩
    · refine ⟨hsucc, ?_⟩
      rw [hst]
      exact (manageWeeklyState_spec env.currentWeekStart fs).2.1
    · rw [hrun, htd] at htd2
      injection htd2 with hsame
      exact absurd (hsame ▸ hlt) hge

/-- C7 witness: a matching verdict without a date is rejected, and one
dated 50 (before week start 100) is rejected. -/
theorem transaction_date_guard_witness :
    ((registerTeam sampleEnvNoDate sampleSub sampleFsEmpty).2.success =
        false ∧
      (registerTeam sampleEnvNoDate sampleSub
          sampleFsEmpty).1.registrationsFile =
        some (manageWeeklyState sampleEnvNoDate.currentWeekStart
          sampleFsEmpty).weeklyData) ∧
    ((registerTeam sampleEnvStale sampleSub sampleFsEmpty).2.success =
        false ∧
      (registerTeam sampleEnvStale sampleSub
          sampleFsEmpty).1.registrationsFile =
        some (manageWeeklyState sampleEnvStale.currentWeekStart
          sampleFsEmpty).weeklyData) :=
  ⟨(transaction_date_guard sampleEnvNoDate sampleSub sampleFsEmpty
      { isUtrMatch := true, reason := none, transactionDate := none }
      rfl rfl).1 rfl,
   (transaction_date_guard sampleEnvStale sampleSub sampleFsEmpty
      { isUtrMatch := true, reason := none, transactionDate := some 50 }
      rfl rfl).2 50 rfl (by decide)⟩

/-- C8: when either winner email fails to send, the error propagates to the
caller and the winners history file is left unchanged. -/
theorem winner_email_failure_aborts (env : WinnerEnv)
    (t1 t2 : TeamRegistrationData) (fs : FileStore) :
    (∀ e, env.sendFirst = Except.error e →
      (processAndEmailWinners env t1 t2 fs).2 = Except.error e ∧
      (processAndEmailWinners env t1 t2 fs).1.winnersFile =
        fs.winnersFile) ∧
    (∀ e, env.sendFirst = Except.ok () → env.sendSecond = Except.error e →
      (processAndEmailWinners env t1 t2 fs).2 = Except.error e ∧
      (processAndEmailWinners env t1 t2 fs).1.winnersFile =
        fs.winnersFile) := by
  have hw := (manageWeeklyState_spec env.currentWeekStart fs).2.2.2
  constructor
  · intro e he
    simp [processAndEmailWinners, he, hw]
  · intro e h1 h2
    simp [processAndEmailWinners, h1, h2, hw]

/-- C8 witness: a failing first or second send propagates the error and
leaves the (absent) winners file untouched. -/
theorem winner_email_failure_aborts_witness :
    ((processAndEmailWinners sampleWinnerEnvFail sampleTeam sampleTeam
        sampleFsEmpty).2 = Except.error "send failed" ∧
      (processAndEmailWinners sampleWinnerEnvFail sampleTeam sampleTeam
        sampleFsEmpty).1.winnersFile = sampleFsEmpty.winnersFile) ∧
    ((processAndEmailWinners sampleWinnerEnvFail2 sampleTeam sampleTeam
        sampleFsEmpty).2 = Except.error "send failed" ∧
      (processAndEmailWinners sampleWinnerEnvFail2 sampleTeam sampleTeam
        sampleFsEmpty).1.winnersFile = sampleFsEmpty.winnersFile) :=
  ⟨(winner_email_failure_aborts sampleWinnerEnvFail sampleTeam sampleTeam
      sampleFsEmpty).1 "send failed" rfl,
   (winner_email_failure_aborts sampleWinnerEnvFail2 sampleTeam sampleTeam
      sampleFsEmpty).2 "send failed" rfl rfl⟩

/-- Prepending a record to a list purged of its week leaves exactly one
entry for that week. -/
theorem countP_cons_filter_ne (S : Nat) (r0 : WeeklyWinner)
    (hr : r0.weekStart = S) (l : List WeeklyWinner) :
    List.countP (fun x => x.weekStart == S)
      (r0 :: l.filter fun w => w.weekStart != S) = 1 := by
  rw [List.countP_cons_of_pos]
  · have hz : List.countP (fun x => x.weekStart == S)
        (l.filter fun w => w.weekStart != S) = 0 := by
      rw [List.countP_eq_zero]
      intro x hx
      rw [List.mem_filter] at hx
      simpa using hx.2
    simp [hz]
  · simp [hr]

/-- C9: a successful winner run returns `ok`, stores the new record first
in the history, every surviving older entry has a different week start,
and the stored history has exactly one entry for the current week. -/
theorem winners_history_replaced_not_duplicated (env : WinnerEnv)
    (t1 t2 : TeamRegistrationData) (fs : FileStore)
    (h1 : env.sendFirst = Except.ok ()) (h2 : env.sendSecond = Except.ok ()) :
    ∃ rest : List WeeklyWinner,
      (processAndEmailWinners env t1 t2 fs).1.winnersFile = some
        ({ weekStart :=
             (manageWeeklyState env.currentWeekStart
               fs).state.registrationWeekStart
           winners :=
             [ { rank := Rank.first, teamName := t1.teamName },
               { rank := Rank.second, teamName := t2.teamName } ]
           totalTeams :=
             (manageWeeklyState env.currentWeekStart
               fs).state.registeredTeamsCount } :: rest) ∧
      (processAndEmailWinners env t1 t2 fs).2 = Except.ok () ∧
      (∀ x ∈ rest, x.weekStart ≠
        (manageWeeklyState env.currentWeekStart
          fs).state.registrationWeekStart) ∧
      List.countP
        (fun x => x.weekStart ==
          (manageWeeklyState env.currentWeekStart
            fs).state.registrationWeekStart)
        ((processAndEmailWinners env t1 t2 fs).1.winnersFile.getD []) = 1 := by
  refine ⟨((manageWeeklyState env.currentWeekStart
      fs).store.winnersFile.getD []).filter
    (fun w => w.weekStart !=
      (manageWeeklyState env.currentWeekStart
        fs).state.registrationWeekStart), ?_, ?_, ?_, ?_⟩
  · simp [processAndEmailWinners, h1, h2]
  · simp [processAndEmailWinners, h1, h2]
  · intro x hx
    rw [List.mem_filter] at hx
    simpa using hx.2
  · have hfile : (processAndEmailWinners env t1 t2 fs).1.winnersFile = some
        ({ weekStart :=
             (manageWeeklyState env.currentWeekStart
               fs).state.registrationWeekStart
           winners :=
             [ { rank := Rank.first, teamName := t1.teamName },
               { rank := Rank.second, teamName := t2.teamName } ]
           totalTeams :=
             (manageWeeklyState env.currentWeekStart
               fs).state.registeredTeamsCount } ::
          ((manageWeeklyState env.currentWeekStart
              fs).store.winnersFile.getD []).filter
            (fun w => w.weekStart !=
              (manageWeeklyState env.currentWeekStart
                fs).state.registrationWeekStart)) := by
      simp [processAndEmailWinners, h1, h2]
    rw [hfile]
    exact countP_cons_filter_ne _ _ rfl _

/-- C9 witness: a successful run on an empty store yields a singleton
history headed by the new record. -/
theorem winners_history_replaced_not_duplicated_witness :
    ∃ rest : List WeeklyWinner,
      (processAndEmailWinners sampleWinnerEnvOk sampleTeam sampleTeam
        sampleFsEmpty).1.winnersFile = some
        ({ weekStart :=
             (manageWeeklyState sampleWinnerEnvOk.currentWeekStart
               sampleFsEmpty).state.registrationWeekStart
           winners :=
             [ { rank := Rank.first, teamName := sampleTeam.teamName },
               { rank := Rank.second, teamName := sampleTeam.teamName } ]
           totalTeams :=
             (manageWeeklyState sampleWinnerEnvOk.currentWeekStart
               sampleFsEmpty).state.registeredTeamsCount } :: rest) ∧
      (processAndEmailWinners sampleWinnerEnvOk sampleTeam sampleTeam
        sampleFsEmpty).2 = Except.ok () ∧
      (∀ x ∈ rest, x.weekStart ≠
        (manageWeeklyState sampleWinnerEnvOk.currentWeekStart
          sampleFsEmpty).state.registrationWeekStart) ∧
      List.countP
        (fun x => x.weekStart ==
          (manageWeeklyState sampleWinnerEnvOk.currentWeekStart
            sampleFsEmpty).state.registrationWeekStart)
        ((processAndEmailWinners sampleWinnerEnvOk sampleTeam sampleTeam
          sampleFsEmpty).1.winnersFile.getD []) = 1 :=
  winners_history_replaced_not_duplicated sampleWinnerEnvOk sampleTeam
    sampleTeam sampleFsEmpty rfl rfl

end Founders
